import Mathlib

/-!
# nakama-rpc: the `process_file_payload` remote procedure

A shallow embedding of `main.go`.  The handler `processFilePayload` decodes a
JSON payload, fills in defaults, reads a file, hashes it, consults the table
`file_data`, conditionally inserts a row and shapes a response.

Conventions of the embedding.

* Go `string` and `[]byte` values are immutable byte sequences; both are
  modelled by `String`, and the conversion `string(fileContent)` is the
  identity.  The program only compares strings for equality, concatenates them
  and passes them on.
* Go returns `(string, error)`; the model returns `Except RuntimeError String`.
* Library and host collaborators the handler calls (`encoding/json`,
  `ioutil.ReadFile`, `crypto/sha256`, `time.Now`) are fields of `Env`; every
  theorem is stated for an arbitrary `Env`.  `encoding/hex.EncodeToString` is
  written out.
* The table `file_data` is a list of rows.  The two SQL statements of the
  handler are given their meaning against the schema of
  `createSchemaIfNotExists` (primary key `(type, version)`, every other column
  nullable).  What the database does beyond the table contents (driver
  failures, rows committed by other sessions between the `SELECT` and the
  `INSERT`) is an explicit argument `DbEvents`.
* Calls to the logger have no effect on the result and are left out.
-/

namespace NakamaRpc

/-! ## Data model -/

/-- Go `type Payload struct` (main.go 15-19).  A JSON key that is missing
leaves the field at the Go zero value `""`. -/
structure Payload where
  Type_ : String
  Version : String
  Hash : String
deriving DecidableEq, Repr

/-- Go `type Response struct` (main.go 21-26). -/
structure Response where
  Type_ : String
  Version : String
  Hash : String
  Content : String
deriving DecidableEq, Repr

/-- Go constant `FileNotFound` (main.go 29). -/
def FileNotFound : String := "file not found"

/-- Go constant `InternalServerError` (main.go 30). -/
def InternalServerError : String := "internal server error"

/-- The value built by `runtime.NewError(message, code)`. -/
structure RuntimeError where
  message : String
  code : Int
deriving DecidableEq, Repr

/-- The string members that `encoding/json` finds in the payload for the three
keys of `Payload`; `none` is a key that is missing (or JSON `null`). -/
structure JsonFields where
  type_ : Option String
  version : Option String
  hash : Option String
deriving DecidableEq, Repr

/-- The Go array type `[32]byte` returned by `sha256.Sum256`. -/
structure Digest where
  bytes : List (Fin 256)
  size_eq : bytes.length = 32

/-- One row of `file_data` (main.go 130-137): `type` and `version` form the
primary key, the other columns are nullable. -/
structure Row where
  type_ : String
  version : String
  hash : Option String
  content : Option String
  processed_at : Option Nat
deriving DecidableEq, Repr

/-- The contents of the table `file_data`. -/
abbrev Table := List Row

/-- The errors of `database/sql` that the handler can observe. -/
inductive SqlError where
  | errNoRows
  | uniqueViolation
  | other (msg : String)
deriving DecidableEq, Repr

/-- The SQL statements the handler sends, with their arguments. -/
inductive Stmt where
  | selectHash (type_ version : String)
  | insertRow (row : Row)
deriving DecidableEq, Repr

/-- What the database does around one request, beyond the table contents. -/
structure DbEvents where
  /-- a driver or connection failure of the `SELECT`, if any -/
  queryErr : Option String
  /-- rows other sessions try to commit between this request's `SELECT` and
  its `INSERT` -/
  concurrent : List Row
  /-- a driver or connection failure of the `INSERT`, if any -/
  execErr : Option String
deriving DecidableEq, Repr

/-- The collaborators outside the repository. -/
structure Env where
  /-- `encoding/json`: the members found in the payload, or the decoding error -/
  jsonFields : String → Except String JsonFields
  /-- `json.Marshal` of a `Response` (it cannot fail on a struct of strings) -/
  jsonMarshal : Response → String
  /-- `ioutil.ReadFile`: `none` on any error -/
  readFile : String → Option String
  /-- `sha256.Sum256` -/
  sum256 : String → Digest
  /-- `time.Now()` -/
  now : Nat

/-- The result of one call: the Go return value, the table afterwards, and the
SQL statements that were sent, in order. -/
structure Outcome where
  result : Except RuntimeError String
  rows : Table
  stmts : List Stmt

/-! ## Library functions -/

/-- Go `encoding/hex`: `const hextable = "0123456789abcdef"`. -/
def hextable : List Char := "0123456789abcdef".toList

/-- Go `hex.EncodeToString`: each byte `v` yields `hextable[v>>4]` and
`hextable[v&0x0f]`. -/
def encodeToString (src : List (Fin 256)) : String :=
  String.mk (src.flatMap fun v => [hextable.getD (v.val / 16) '0', hextable.getD (v.val % 16) '0'])

/-- Go `var p Payload; json.Unmarshal([]byte(payload), &p)` (main.go 50-51):
the members that are present overwrite the zero value. -/
def unmarshal (env : Env) (payload : String) : Except String Payload :=
  match env.jsonFields payload with
  | .error msg => .error msg
  | .ok o => .ok ⟨o.type_.getD "", o.version.getD "", o.hash.getD ""⟩

/-- Go `fmt.Sprintf("/nakama/data/sample_files/%s/%s.json", p.Type, p.Version)`
(main.go 69). -/
def filePath (type_ version : String) : String :=
  "/nakama/data/sample_files/" ++ type_ ++ "/" ++ version ++ ".json"

/-! ## The table `file_data` -/

/-- Whether a row has the key `(type, version)`. -/
def Row.hasKey (r : Row) (type_ version : String) : Bool :=
  decide (r.type_ = type_) && decide (r.version = version)

/-- Go `db.QueryRowContext(ctx, "SELECT hash FROM file_data WHERE type = $1 AND
version = $2", ...).Scan(&existingHash)` (main.go 83-84): the pair
`(existingHash, err)`.  `existingHash` keeps its zero value `""` unless a row
with a non-NULL hash is scanned; no row gives `sql.ErrNoRows`; a NULL hash
cannot be scanned into a Go `string`. -/
def queryRowScan (ev : DbEvents) (db : Table) (type_ version : String) :
    String × Option SqlError :=
  match ev.queryErr with
  | some msg => ("", some (.other msg))
  | none =>
    match db.find? (fun r => r.hasKey type_ version) with
    | none => ("", some .errNoRows)
    | some r =>
      match r.hash with
      | none => ("", some (.other "converting NULL to string is unsupported"))
      | some h => (h, none)

/-- An `INSERT` of one row against the primary key `(type, version)`: rejected
when a row with the same key is present, appended otherwise. -/
def insertRow (db : Table) (row : Row) : Table × Option SqlError :=
  if db.any (fun r => r.hasKey row.type_ row.version) then (db, some .uniqueViolation)
  else (db ++ [row], none)

/-- The table after other sessions tried to commit `rows`, each under the same
primary-key rule. -/
def commitAll (db : Table) (rows : List Row) : Table :=
  rows.foldl (fun t r => (insertRow t r).1) db

/-- Go `db.Exec("INSERT INTO file_data (type, version, content, hash,
processed_at) VALUES ($1, $2, $3, $4, $5)", ...)` (main.go 94-95): the table
afterwards and the error.  The statement runs on the table as it is once the
concurrent rows are in. -/
def execInsert (ev : DbEvents) (db : Table) (row : Row) : Table × Option SqlError :=
  match ev.execErr with
  | some msg => (commitAll db ev.concurrent, some (.other msg))
  | none => insertRow (commitAll db ev.concurrent) row

/-! ## The handler -/

/-- The block `// Set default values` (main.go 56-65). -/
def setDefaults (p : Payload) : Payload :=
  let p := if p.Type_ = "" then { p with Type_ := "core" } else p
  let p := if p.Version = "" then { p with Version := "1.0.0" } else p
  let p := if p.Hash = "" then { p with Hash := "null" } else p
  p

/-- The block `// Calculate file content hash` (main.go 77-79):
`hex.EncodeToString` of `sha256.Sum256(fileContent)`. -/
def calculateHash (env : Env) (fileContent : String) : String :=
  encodeToString (env.sum256 fileContent).bytes

/-- The block `// Prepare response` (main.go 103-114). -/
def prepareResponse (p : Payload) (existingHash calculatedHash fileContent : String) :
    Response :=
  let response : Response := ⟨p.Type_, p.Version, "", ""⟩
  if existingHash = "" ∨ p.Hash = calculatedHash then
    { response with Hash := calculatedHash, Content := fileContent }
  else
    { response with Content := "null", Hash := "null" }

/-- Go `processFilePayload` (main.go 47-125).  The Go code falls through from
both branches of `if existingHash != ""` to the block `// Prepare response`;
here each branch ends with that block.  `json.Marshal` returns no error on a
struct of four strings, so the branch at main.go 118-121 is never taken. -/
def processFilePayload (env : Env) (ev : DbEvents) (db : Table) (payload : String) :
    Outcome :=
  match unmarshal env payload with
  | .error msg => ⟨.error ⟨msg, 3⟩, db, []⟩
  | .ok p0 =>
    let p := setDefaults p0
    -- Read file
    match env.readFile (filePath p.Type_ p.Version) with
    | none => ⟨.error ⟨FileNotFound, 5⟩, db, []⟩
    | some fileContent =>
      -- Calculate file content hash
      let calculatedHash := calculateHash env fileContent
      -- Check if the file already exists in the database
      let q := Stmt.selectHash p.Type_ p.Version
      let (existingHash, err) := queryRowScan ev db p.Type_ p.Version
      if err ≠ none ∧ err ≠ some .errNoRows then
        ⟨.error ⟨InternalServerError, 13⟩, db, [q]⟩
      else if existingHash ≠ "" then
        ⟨.ok (env.jsonMarshal (prepareResponse p existingHash calculatedHash fileContent)),
          db, [q]⟩
      else
        -- Save data to the database
        let row : Row :=
          ⟨p.Type_, p.Version, some calculatedHash, some fileContent, some env.now⟩
        let (db1, err1) := execInsert ev db row
        if err1 ≠ none then
          ⟨.error ⟨InternalServerError, 13⟩, db1, [q, .insertRow row]⟩
        else
          ⟨.ok (env.jsonMarshal (prepareResponse p existingHash calculatedHash fileContent)),
            db1, [q, .insertRow row]⟩

/-! ## A sample environment

Used to evaluate the handler on concrete requests.  `Sha256.sum256` is SHA-256
as in FIPS 180-4 over the UTF-8 bytes of the content, with 32-bit words held
in `Nat` and reduced modulo `2^32`. -/

namespace Sha256

/-- The round constants. -/
def K : List Nat := [
  0x428a2f98, 0x71374491, 0xb5c0fbcf, 0xe9b5dba5, 0x3956c25b, 0x59f111f1, 0x923f82a4, 0xab1c5ed5,
  0xd807aa98, 0x12835b01, 0x243185be, 0x550c7dc3, 0x72be5d74, 0x80deb1fe, 0x9bdc06a7, 0xc19bf174,
  0xe49b69c1, 0xefbe4786, 0x0fc19dc6, 0x240ca1cc, 0x2de92c6f, 0x4a7484aa, 0x5cb0a9dc, 0x76f988da,
  0x983e5152, 0xa831c66d, 0xb00327c8, 0xbf597fc7, 0xc6e00bf3, 0xd5a79147, 0x06ca6351, 0x14292967,
  0x27b70a85, 0x2e1b2138, 0x4d2c6dfc, 0x53380d13, 0x650a7354, 0x766a0abb, 0x81c2c92e, 0x92722c85,
  0xa2bfe8a1, 0xa81a664b, 0xc24b8b70, 0xc76c51a3, 0xd192e819, 0xd6990624, 0xf40e3585, 0x106aa070,
  0x19a4c116, 0x1e376c08, 0x2748774c, 0x34b0bcb5, 0x391c0cb3, 0x4ed8aa4a, 0x5b9cca4f, 0x682e6ff3,
  0x748f82ee, 0x78a5636f, 0x84c87814, 0x8cc70208, 0x90befffa, 0xa4506ceb, 0xbef9a3f7, 0xc67178f2]

/-- The initial hash value. -/
def H0 : List Nat :=
  [0x6a09e667, 0xbb67ae85, 0x3c6ef372, 0xa54ff53a, 0x510e527f, 0x9b05688c, 0x1f83d9ab, 0x5be0cd19]

/-- Rotate a 32-bit word right. -/
def rotr (x n : Nat) : Nat := (x >>> n ||| x <<< (32 - n)) % 2 ^ 32

/-- Addition of 32-bit words. -/
def add32 (a b : Nat) : Nat := (a + b) % 2 ^ 32

/-- Complement of a 32-bit word. -/
def not32 (a : Nat) : Nat := 2 ^ 32 - 1 - a

/-- Message padding: a `0x80` byte, zero bytes, and the bit length on 8 bytes. -/
def pad (msg : List Nat) : List Nat :=
  let l := msg.length
  msg ++ [0x80] ++ List.replicate ((119 - l % 64) % 64) 0
    ++ (List.range 8).map (fun i => ((8 * l) >>> (8 * (7 - i))) % 256)

/-- Big-endian 32-bit words of a byte list. -/
def words : List Nat → List Nat
  | a :: b :: c :: d :: rest => (((a * 256 + b) * 256 + c) * 256 + d) :: words rest
  | _ => []

/-- The message schedule of one block. -/
def schedule (blk : List Nat) : List Nat :=
  (List.range 48).foldl (fun w _ =>
    let n := w.length
    let w15 := w.getD (n - 15) 0
    let w2 := w.getD (n - 2) 0
    let s0 := rotr w15 7 ^^^ rotr w15 18 ^^^ (w15 >>> 3)
    let s1 := rotr w2 17 ^^^ rotr w2 19 ^^^ (w2 >>> 10)
    w ++ [add32 (add32 (w.getD (n - 16) 0) s0) (add32 (w.getD (n - 7) 0) s1)]) blk

/-- One round of the compression function. -/
def round (st : List Nat) (kw : Nat × Nat) : List Nat :=
  match st with
  | [a, b, c, d, e, f, g, h] =>
    let S1 := rotr e 6 ^^^ rotr e 11 ^^^ rotr e 25
    let ch := (e &&& f) ^^^ (not32 e &&& g)
    let t1 := add32 (add32 (add32 h S1) (add32 ch kw.1)) kw.2
    let S0 := rotr a 2 ^^^ rotr a 13 ^^^ rotr a 22
    let maj := (a &&& b) ^^^ (a &&& c) ^^^ (b &&& c)
    [add32 t1 (add32 S0 maj), a, b, c, add32 d t1, e, f, g]
  | _ => st

/-- The compression function. -/
def compress (h : List Nat) (blk : List Nat) : List Nat :=
  List.zipWith add32 h ((K.zip (schedule blk)).foldl round h)

/-- The first `n` blocks of 16 words. -/
def blocks : Nat → List Nat → List (List Nat)
  | 0, _ => []
  | n + 1, ws => ws.take 16 :: blocks n (ws.drop 16)

/-- The UTF-8 bytes of a string. -/
def utf8Bytes (s : String) : List Nat :=
  s.data.flatMap fun c => (String.utf8EncodeChar c).map UInt8.toNat

/-- The 32 bytes of the SHA-256 digest. -/
def sumBytes (content : String) : List (Fin 256) :=
  let ws := words (pad (utf8Bytes content))
  let hs := (blocks (ws.length / 16) ws).foldl compress H0
  (List.range 8).flatMap fun i =>
    let w := hs.getD i 0
    [Fin.ofNat (w >>> 24), Fin.ofNat (w >>> 16), Fin.ofNat (w >>> 8), Fin.ofNat w]

/-- The digest as a `[32]byte`. -/
def sum256 (content : String) : Digest :=
  ⟨sumBytes content, by rfl⟩

end Sha256

/-- The content of the sample file `core/1.0.0.json`. -/
def sampleContent : String := "hello"

/-- The SHA-256 fingerprint of `sampleContent`, in hexadecimal. -/
def sampleHash : String :=
  "2cf24dba5fb0a30e26e83b2ac5b9e29e1b161e5c1fa7425e73043362938b9824"

/-- A request without members, a request naming `core`, `1.0.0` and
`sampleHash`, one with a wrong hash, one for a file that does not exist; every
other payload is malformed. -/
def sampleFields (payload : String) : Except String JsonFields :=
  if payload = "empty" then .ok ⟨none, none, none⟩
  else if payload = "core/1.0.0/good" then .ok ⟨some "core", some "1.0.0", some sampleHash⟩
  else if payload = "core/1.0.0/bad" then .ok ⟨some "core", some "1.0.0", some "incorrect_hash"⟩
  else if payload = "core/1.0.0/null" then .ok ⟨some "core", some "1.0.0", some "null"⟩
  else if payload = "nonexistent/1.0.0/null" then
    .ok ⟨some "nonexistent", some "1.0.0", some "null"⟩
  else .error "invalid character"

/-- A rendering of a response, for contents that need no escaping. -/
def sampleMarshal (r : Response) : String :=
  "type=" ++ r.Type_ ++ ";version=" ++ r.Version ++ ";hash=" ++ r.Hash
    ++ ";content=" ++ r.Content

/-- The sample environment: one file, `core/1.0.0.json`. -/
def sampleEnv : Env where
  jsonFields := sampleFields
  jsonMarshal := sampleMarshal
  readFile := fun path =>
    if path = "/nakama/data/sample_files/core/1.0.0.json" then some sampleContent else none
  sum256 := Sha256.sum256
  now := 1700000000

/-- A database that answers every statement and has no other sessions. -/
def quiet : DbEvents := ⟨none, [], none⟩

/-- The row the handler builds for `core`, `1.0.0` in the sample environment. -/
def sampleRow : Row := ⟨"core", "1.0.0", some sampleHash, some "hello", some 1700000000⟩

/-- The row another session commits for `core`, `1.0.0` in the race below. -/
def racingRow : Row := ⟨"core", "1.0.0", some sampleHash, some "hello", some 1699999999⟩

/-- A database where another session commits `racingRow` between the `SELECT`
and the `INSERT` of the request. -/
def lostRace : DbEvents := ⟨none, [racingRow], none⟩

/-- A row for `core`, `1.0.0` whose stored fingerprint is the empty string. -/
def emptyHashRow : Row := ⟨"core", "1.0.0", some "", some "hello", some 1699999999⟩

/-- A database whose `SELECT` fails at the driver. -/
def selectDown : DbEvents := ⟨some "connection refused", [], none⟩

/-! ## The paths of the handler -/

set_option maxRecDepth 100000

theorem processFilePayload_malformed (env : Env) (ev : DbEvents) (db : Table)
    (payload msg : String) (hdec : unmarshal env payload = .error msg) :
    processFilePayload env ev db payload = ⟨.error ⟨msg, 3⟩, db, []⟩ := by
  simp [processFilePayload, hdec]

theorem processFilePayload_noFile (env : Env) (ev : DbEvents) (db : Table)
    (payload : String) (p0 : Payload) (hdec : unmarshal env payload = .ok p0)
    (hfile : env.readFile (filePath (setDefaults p0).Type_ (setDefaults p0).Version) = none) :
    processFilePayload env ev db payload = ⟨.error ⟨FileNotFound, 5⟩, db, []⟩ := by
  simp [processFilePayload, hdec, hfile]

theorem processFilePayload_queryFailed (env : Env) (ev : DbEvents) (db : Table)
    (payload : String) (p0 : Payload) (c h msg : String)
    (hdec : unmarshal env payload = .ok p0)
    (hfile : env.readFile (filePath (setDefaults p0).Type_ (setDefaults p0).Version) = some c)
    (hq : queryRowScan ev db (setDefaults p0).Type_ (setDefaults p0).Version
      = (h, some (.other msg))) :
    processFilePayload env ev db payload
      = ⟨.error ⟨InternalServerError, 13⟩, db,
          [.selectHash (setDefaults p0).Type_ (setDefaults p0).Version]⟩ := by
  simp [processFilePayload, hdec, hfile, hq]

theorem processFilePayload_skip (env : Env) (ev : DbEvents) (db : Table)
    (payload : String) (p0 : Payload) (c h : String) (err : Option SqlError)
    (hdec : unmarshal env payload = .ok p0)
    (hfile : env.readFile (filePath (setDefaults p0).Type_ (setDefaults p0).Version) = some c)
    (hq : queryRowScan ev db (setDefaults p0).Type_ (setDefaults p0).Version = (h, err))
    (herr : err = none ∨ err = some .errNoRows) (hne : h ≠ "") :
    processFilePayload env ev db payload
      = ⟨.ok (env.jsonMarshal (prepareResponse (setDefaults p0) h (calculateHash env c) c)), db,
          [.selectHash (setDefaults p0).Type_ (setDefaults p0).Version]⟩ := by
  rcases herr with rfl | rfl <;> simp [processFilePayload, hdec, hfile, hq, hne]

theorem processFilePayload_insert (env : Env) (ev : DbEvents) (db db1 : Table)
    (payload : String) (p0 : Payload) (c : String) (err err1 : Option SqlError)
    (hdec : unmarshal env payload = .ok p0)
    (hfile : env.readFile (filePath (setDefaults p0).Type_ (setDefaults p0).Version) = some c)
    (hq : queryRowScan ev db (setDefaults p0).Type_ (setDefaults p0).Version = ("", err))
    (herr : err = none ∨ err = some .errNoRows)
    (hins : execInsert ev db ⟨(setDefaults p0).Type_, (setDefaults p0).Version,
      some (calculateHash env c), some c, some env.now⟩ = (db1, err1)) :
    processFilePayload env ev db payload
      = ⟨if err1 ≠ none then .error ⟨InternalServerError, 13⟩
          else .ok (env.jsonMarshal (prepareResponse (setDefaults p0) "" (calculateHash env c) c)),
          db1,
          [.selectHash (setDefaults p0).Type_ (setDefaults p0).Version,
           .insertRow ⟨(setDefaults p0).Type_, (setDefaults p0).Version,
              some (calculateHash env c), some c, some env.now⟩]⟩ := by
  rcases herr with rfl | rfl <;> by_cases h1 : err1 = none <;>
    simp [processFilePayload, hdec, hfile, hq, hins, h1]

/-! ## Hexadecimal fingerprints -/

theorem hextable_getD_mem (n : Nat) : hextable.getD n '0' ∈ hextable := by
  by_cases h : n < 16
  · interval_cases n <;> decide
  · have hlen : hextable.length ≤ n := by
      have : hextable.length = 16 := by decide
      omega
    rw [List.getD_eq_default _ _ hlen]
    decide

theorem encodeToString_length (src : List (Fin 256)) :
    (encodeToString src).length = 2 * src.length := by
  unfold encodeToString
  rw [String.length_mk]
  induction src with
  | nil => rfl
  | cons v vs ih =>
    rw [List.flatMap_cons, List.length_append, ih, List.length_cons]
    simp only [List.length_cons, List.length_nil]
    omega

theorem encodeToString_mem (src : List (Fin 256)) (ch : Char)
    (h : ch ∈ (encodeToString src).toList) : ch ∈ hextable := by
  unfold encodeToString at h
  simp only [String.toList, List.mem_flatMap] at h
  obtain ⟨v, _, hv⟩ := h
  simp only [List.mem_cons, List.mem_singleton, List.not_mem_nil, or_false] at hv
  rcases hv with rfl | rfl <;> exact hextable_getD_mem _

theorem calculateHash_length (env : Env) (content : String) :
    (calculateHash env content).length = 64 := by
  unfold calculateHash
  rw [encodeToString_length, (env.sum256 content).size_eq]

theorem calculateHash_ne_empty (env : Env) (content : String) :
    calculateHash env content ≠ "" := by
  intro h
  have := calculateHash_length env content
  rw [h] at this
  exact absurd this (by decide)

theorem calculateHash_ne_null (env : Env) (content : String) :
    calculateHash env content ≠ "null" := by
  intro h
  have := calculateHash_length env content
  rw [h] at this
  exact absurd this (by decide)

/-! ## The table -/

theorem queryRowScan_cases (ev : DbEvents) (db : Table) (k v : String) :
    (∃ h, queryRowScan ev db k v = (h, none)) ∨
    queryRowScan ev db k v = ("", some .errNoRows) ∨
    ∃ msg, queryRowScan ev db k v = ("", some (.other msg)) := by
  unfold queryRowScan
  split
  · exact Or.inr (Or.inr ⟨_, rfl⟩)
  · split
    · exact Or.inr (Or.inl rfl)
    · split
      · exact Or.inr (Or.inr ⟨_, rfl⟩)
      · exact Or.inl ⟨_, rfl⟩

theorem insertRow_cases (db : Table) (row : Row) :
    (insertRow db row = (db, some .uniqueViolation) ∧
      db.any (fun r => r.hasKey row.type_ row.version) = true) ∨
    (insertRow db row = (db ++ [row], none) ∧
      db.any (fun r => r.hasKey row.type_ row.version) = false) := by
  unfold insertRow
  by_cases h : db.any (fun r => r.hasKey row.type_ row.version) = true
  · left; simp [h]
  · right
    have h2 : db.any (fun r => r.hasKey row.type_ row.version) = false := by
      cases hb : db.any (fun r => r.hasKey row.type_ row.version)
      · rfl
      · exact absurd hb h
    simp [h2]

theorem commitAll_extends (rows : List Row) (db : Table) :
    ∃ extra, commitAll db rows = db ++ extra := by
  induction rows generalizing db with
  | nil => exact ⟨[], by simp [commitAll]⟩
  | cons r rs ih =>
    have hstep : commitAll db (r :: rs) = commitAll (insertRow db r).1 rs := rfl
    rw [hstep]
    rcases insertRow_cases db r with ⟨h, _⟩ | ⟨h, _⟩
    · rw [h]; exact ih db
    · rw [h]
      obtain ⟨e, he⟩ := ih (db ++ [r])
      exact ⟨[r] ++ e, by rw [he, List.append_assoc]⟩

theorem execInsert_cases (ev : DbEvents) (db : Table) (row : Row) :
    (∃ e, execInsert ev db row = (commitAll db ev.concurrent, some e)) ∨
    (execInsert ev db row = (commitAll db ev.concurrent ++ [row], none) ∧
      (commitAll db ev.concurrent).any (fun r => r.hasKey row.type_ row.version) = false) := by
  unfold execInsert
  split
  · exact Or.inl ⟨_, rfl⟩
  · rcases insertRow_cases (commitAll db ev.concurrent) row with ⟨h, _⟩ | ⟨h, hk⟩
    · exact Or.inl ⟨_, h⟩
    · exact Or.inr ⟨h, hk⟩

theorem Row.hasKey_self (r : Row) : r.hasKey r.type_ r.version = true := by
  simp [Row.hasKey]

theorem find?_append_new (t : Table) (row : Row)
    (h : t.any (fun r => r.hasKey row.type_ row.version) = false) :
    (t ++ [row]).find? (fun r => r.hasKey row.type_ row.version) = some row := by
  have hnone : t.find? (fun r => r.hasKey row.type_ row.version) = none := by
    rw [List.find?_eq_none]
    intro r hr
    have := List.any_eq_false.mp h r hr
    simpa using this
  rw [List.find?_append, hnone]
  simp [List.find?, Row.hasKey_self]

theorem find?_append_old (t extra : Table) (f : Row → Bool) (r : Row)
    (h : t.find? f = some r) : (t ++ extra).find? f = some r := by
  rw [List.find?_append, h]; rfl

/-- The table after a call is the table before it, or what the `INSERT` of
the row built from the request left. -/
theorem processFilePayload_rows (env : Env) (ev : DbEvents) (db : Table) (payload : String) :
    ((processFilePayload env ev db payload).rows = db ∧
      ∀ row, Stmt.insertRow row ∉ (processFilePayload env ev db payload).stmts) ∨
    ∃ row, (processFilePayload env ev db payload).rows = (execInsert ev db row).1 := by
  cases hdec : unmarshal env payload with
  | error msg =>
    rw [processFilePayload_malformed env ev db payload msg hdec]
    exact Or.inl ⟨rfl, by simp⟩
  | ok p0 =>
    cases hfile : env.readFile (filePath (setDefaults p0).Type_ (setDefaults p0).Version) with
    | none =>
      rw [processFilePayload_noFile env ev db payload p0 hdec hfile]
      exact Or.inl ⟨rfl, by simp⟩
    | some c =>
      rcases hex : execInsert ev db ⟨(setDefaults p0).Type_, (setDefaults p0).Version,
        some (calculateHash env c), some c, some env.now⟩ with ⟨db1, err1⟩
      rcases queryRowScan_cases ev db (setDefaults p0).Type_ (setDefaults p0).Version
        with ⟨h, hq⟩ | hq | ⟨msg, hq⟩
      · by_cases hne : h = ""
        · subst hne
          rw [processFilePayload_insert env ev db db1 payload p0 c _ err1 hdec hfile hq
            (Or.inl rfl) hex]
          exact Or.inr ⟨_, by rw [hex]⟩
        · rw [processFilePayload_skip env ev db payload p0 c h none hdec hfile hq
            (Or.inl rfl) hne]
          exact Or.inl ⟨rfl, by simp⟩
      · rw [processFilePayload_insert env ev db db1 payload p0 c _ err1 hdec hfile hq
          (Or.inr rfl) hex]
        exact Or.inr ⟨_, by rw [hex]⟩
      · rw [processFilePayload_queryFailed env ev db payload p0 c "" msg hdec hfile hq]
        exact Or.inl ⟨rfl, by simp⟩

theorem setDefaults_eq (p : Payload) :
    setDefaults p = ⟨if p.Type_ = "" then "core" else p.Type_,
      if p.Version = "" then "1.0.0" else p.Version,
      if p.Hash = "" then "null" else p.Hash⟩ := by
  by_cases h1 : p.Type_ = "" <;> by_cases h2 : p.Version = "" <;> by_cases h3 : p.Hash = "" <;>
    simp [setDefaults, h1, h2, h3]

theorem setDefaults_nonempty (p : Payload) :
    (setDefaults p).Type_ ≠ "" ∧ (setDefaults p).Version ≠ "" ∧ (setDefaults p).Hash ≠ "" := by
  rw [setDefaults_eq]
  refine ⟨?_, ?_, ?_⟩
  · show (if p.Type_ = "" then "core" else p.Type_) ≠ ""
    split
    · decide
    · assumption
  · show (if p.Version = "" then "1.0.0" else p.Version) ≠ ""
    split
    · decide
    · assumption
  · show (if p.Hash = "" then "null" else p.Hash) ≠ ""
    split
    · decide
    · assumption

theorem setDefaults_idem (p : Payload) : setDefaults (setDefaults p) = setDefaults p := by
  obtain ⟨h1, h2, h3⟩ := setDefaults_nonempty p
  rw [setDefaults_eq (setDefaults p)]
  simp [h1, h2, h3]

/-! ## The claims -/

/-- C1, first-time resolution.  When the lookup for the normalized key reports
no record and the insert succeeds, the handler succeeds with the response
carrying the normalized type and version, the hexadecimal SHA-256 of the
content and the content itself, and the record of that key in the table
afterwards holds that content and that fingerprint. -/
theorem first_time_resolution (env : Env) (ev : DbEvents) (db : Table)
    (payload : String) (p0 p : Payload) (c : String)
    (hdec : unmarshal env payload = .ok p0) (hp : setDefaults p0 = p)
    (hfile : env.readFile (filePath p.Type_ p.Version) = some c)
    (hno : queryRowScan ev db p.Type_ p.Version = ("", some .errNoRows))
    (hins : (execInsert ev db
      ⟨p.Type_, p.Version, some (calculateHash env c), some c, some env.now⟩).2 = none) :
    (processFilePayload env ev db payload).result
      = .ok (env.jsonMarshal ⟨p.Type_, p.Version, calculateHash env c, c⟩) ∧
    (processFilePayload env ev db payload).rows.find? (fun r => r.hasKey p.Type_ p.Version)
      = some ⟨p.Type_, p.Version, some (calculateHash env c), some c, some env.now⟩ := by
  subst hp
  rcases execInsert_cases ev db ⟨(setDefaults p0).Type_, (setDefaults p0).Version,
      some (calculateHash env c), some c, some env.now⟩ with ⟨e, he⟩ | ⟨he, hk⟩
  · rw [he] at hins; cases hins
  · rw [processFilePayload_insert env ev db _ payload p0 c _ _ hdec hfile hno (Or.inr rfl) he]
    refine ⟨by simp [prepareResponse], ?_⟩
    exact find?_append_new _ _ hk

/-- C1 on the sample environment: the first request on an empty table. -/
theorem first_time_resolution_witness :
    queryRowScan quiet [] "core" "1.0.0" = ("", some .errNoRows) ∧
    (execInsert quiet [] sampleRow).2 = none ∧
    (processFilePayload sampleEnv quiet [] "empty").result
      = .ok (sampleMarshal ⟨"core", "1.0.0", calculateHash sampleEnv "hello", "hello"⟩) ∧
    (processFilePayload sampleEnv quiet [] "empty").rows.find?
        (fun r => r.hasKey "core" "1.0.0")
      = some ⟨"core", "1.0.0", some (calculateHash sampleEnv "hello"), some "hello",
          some 1700000000⟩ :=
  ⟨by rfl, by rfl,
    first_time_resolution sampleEnv quiet [] "empty" ⟨"", "", ""⟩ ⟨"core", "1.0.0", "null"⟩
      "hello" (by rfl) (by rfl) (by rfl) (by rfl) (by rfl)⟩

/-- C2, the reveal rule on an existing record.  When the lookup for the
normalized key returns a non-empty stored fingerprint, the handler succeeds;
the response discloses the fresh fingerprint and the content when the
normalized client hash equals the fresh fingerprint, and carries the sentinel
`"null"` twice otherwise.  The stored fingerprint and the rest of the table do
not occur in the response. -/
theorem reveal_rule_on_existing_record (env : Env) (ev : DbEvents) (db : Table)
    (payload : String) (p0 p : Payload) (c stored : String)
    (hdec : unmarshal env payload = .ok p0) (hp : setDefaults p0 = p)
    (hfile : env.readFile (filePath p.Type_ p.Version) = some c)
    (hrec : queryRowScan ev db p.Type_ p.Version = (stored, none))
    (hne : stored ≠ "") :
    (processFilePayload env ev db payload).result
      = .ok (env.jsonMarshal
          (if p.Hash = calculateHash env c
            then ⟨p.Type_, p.Version, calculateHash env c, c⟩
            else ⟨p.Type_, p.Version, "null", "null"⟩)) := by
  subst hp
  rw [processFilePayload_skip env ev db payload p0 c stored none hdec hfile hrec (Or.inl rfl) hne]
  simp [prepareResponse, hne]

/-- C2 on the sample environment: a cached key and a wrong client hash. -/
theorem reveal_rule_on_existing_record_witness :
    queryRowScan quiet [sampleRow] "core" "1.0.0" = (sampleHash, none) ∧
    sampleHash ≠ "" ∧
    (processFilePayload sampleEnv quiet [sampleRow] "core/1.0.0/bad").result
      = .ok (sampleMarshal
          (if "incorrect_hash" = calculateHash sampleEnv "hello"
            then ⟨"core", "1.0.0", calculateHash sampleEnv "hello", "hello"⟩
            else ⟨"core", "1.0.0", "null", "null"⟩)) :=
  ⟨by rfl, by decide,
    reveal_rule_on_existing_record sampleEnv quiet [sampleRow] "core/1.0.0/bad"
      ⟨"core", "1.0.0", "incorrect_hash"⟩ ⟨"core", "1.0.0", "incorrect_hash"⟩ "hello" sampleHash
      (by rfl) (by rfl) (by rfl) (by rfl) (by decide)⟩

/-- C3, write-once.  Whatever the payload, the environment, the table and the
behaviour of the database, every row of the table before the call is a row of
the table after it, and the record found for any key before the call is the
record found for that key after it.  The table after the call is the table
before it, or the table with the rows other sessions committed meanwhile, or
that table with one more row whose key no row had; without other sessions it
is the table before the call or that table with one more row whose key no row
had. -/
theorem write_once (env : Env) (ev : DbEvents) (db : Table) (payload : String) :
    (∀ r ∈ db, r ∈ (processFilePayload env ev db payload).rows) ∧
    (∀ k v r, db.find? (fun x => x.hasKey k v) = some r →
      (processFilePayload env ev db payload).rows.find? (fun x => x.hasKey k v) = some r) ∧
    ((processFilePayload env ev db payload).rows = db ∨
      (processFilePayload env ev db payload).rows = commitAll db ev.concurrent ∨
      ∃ row, (processFilePayload env ev db payload).rows = commitAll db ev.concurrent ++ [row] ∧
        (commitAll db ev.concurrent).any (fun r => r.hasKey row.type_ row.version) = false) ∧
    (ev.concurrent = [] →
      (processFilePayload env ev db payload).rows = db ∨
      ∃ row, (processFilePayload env ev db payload).rows = db ++ [row] ∧
        db.any (fun r => r.hasKey row.type_ row.version) = false) := by
  have hshape : (processFilePayload env ev db payload).rows = db ∨
      (processFilePayload env ev db payload).rows = commitAll db ev.concurrent ∨
      ∃ row, (processFilePayload env ev db payload).rows = commitAll db ev.concurrent ++ [row] ∧
        (commitAll db ev.concurrent).any (fun r => r.hasKey row.type_ row.version) = false := by
    rcases processFilePayload_rows env ev db payload with ⟨h, _⟩ | ⟨row, h⟩
    · exact Or.inl h
    · rcases execInsert_cases ev db row with ⟨e, he⟩ | ⟨he, hk⟩
      · exact Or.inr (Or.inl (by rw [h, he]))
      · exact Or.inr (Or.inr ⟨row, by rw [h, he], hk⟩)
  have hext : ∃ extra, (processFilePayload env ev db payload).rows = db ++ extra := by
    obtain ⟨e, he⟩ := commitAll_extends ev.concurrent db
    rcases hshape with h | h | ⟨row, h, _⟩
    · exact ⟨[], by rw [h, List.append_nil]⟩
    · exact ⟨e, by rw [h, he]⟩
    · exact ⟨e ++ [row], by rw [h, he, List.append_assoc]⟩
  obtain ⟨extra, hextra⟩ := hext
  refine ⟨?_, ?_, hshape, ?_⟩
  · intro r hr
    rw [hextra]
    exact List.mem_append_left _ hr
  · intro k v r hr
    rw [hextra]
    exact find?_append_old db extra _ r hr
  · intro hc
    have hmid : commitAll db ev.concurrent = db := by rw [hc]; rfl
    rw [hmid] at hshape
    rcases hshape with h | h | h
    · exact Or.inl h
    · exact Or.inl h
    · exact Or.inr h

/-- C4, not found.  When the blob source has no entry for the normalized key,
the handler fails with the error `file not found`, code 5, sends no statement
to the database and leaves the table as it was, whatever the table and the
behaviour of the database are. -/
theorem not_found (env : Env) (ev : DbEvents) (db : Table)
    (payload : String) (p0 p : Payload)
    (hdec : unmarshal env payload = .ok p0) (hp : setDefaults p0 = p)
    (hfile : env.readFile (filePath p.Type_ p.Version) = none) :
    (processFilePayload env ev db payload).result = .error ⟨"file not found", 5⟩ ∧
    (processFilePayload env ev db payload).stmts = [] ∧
    (processFilePayload env ev db payload).rows = db := by
  subst hp
  rw [processFilePayload_noFile env ev db payload p0 hdec hfile]
  exact ⟨rfl, rfl, rfl⟩

/-- C4 on the sample environment: a request for a file that does not exist. -/
theorem not_found_witness :
    sampleEnv.readFile (filePath "nonexistent" "1.0.0") = none ∧
    (processFilePayload sampleEnv quiet [sampleRow] "nonexistent/1.0.0/null").result
      = .error ⟨"file not found", 5⟩ ∧
    (processFilePayload sampleEnv quiet [sampleRow] "nonexistent/1.0.0/null").stmts = [] ∧
    (processFilePayload sampleEnv quiet [sampleRow] "nonexistent/1.0.0/null").rows
      = [sampleRow] :=
  ⟨by rfl,
    not_found sampleEnv quiet [sampleRow] "nonexistent/1.0.0/null"
      ⟨"nonexistent", "1.0.0", "null"⟩ ⟨"nonexistent", "1.0.0", "null"⟩ (by rfl) (by rfl)
      (by rfl)⟩

/-- C5, request normalization.  A member of the payload that is missing or the
empty string is replaced by `"core"`, `"1.0.0"` and `"null"` for type, version
and hash; a non-empty member is kept.  After normalization the three fields
are non-empty, normalizing again changes nothing, and a response, when there
is one, carries the normalized type and version. -/
theorem request_normalization (env : Env) (ev : DbEvents) (db : Table)
    (payload : String) (o : JsonFields) (hdec : env.jsonFields payload = .ok o) :
    ∃ p0, unmarshal env payload = .ok p0 ∧
      ((o.type_ = none ∨ o.type_ = some "") → (setDefaults p0).Type_ = "core") ∧
      ((o.version = none ∨ o.version = some "") → (setDefaults p0).Version = "1.0.0") ∧
      ((o.hash = none ∨ o.hash = some "") → (setDefaults p0).Hash = "null") ∧
      (∀ s, o.type_ = some s → s ≠ "" → (setDefaults p0).Type_ = s) ∧
      (∀ s, o.version = some s → s ≠ "" → (setDefaults p0).Version = s) ∧
      (∀ s, o.hash = some s → s ≠ "" → (setDefaults p0).Hash = s) ∧
      (setDefaults p0).Type_ ≠ "" ∧ (setDefaults p0).Version ≠ "" ∧
      (setDefaults p0).Hash ≠ "" ∧
      setDefaults (setDefaults p0) = setDefaults p0 ∧
      ∀ s, (processFilePayload env ev db payload).result = .ok s →
        ∃ h c, s = env.jsonMarshal ⟨(setDefaults p0).Type_, (setDefaults p0).Version, h, c⟩ := by
  refine ⟨⟨o.type_.getD "", o.version.getD "", o.hash.getD ""⟩, by simp [unmarshal, hdec],
    ?_, ?_, ?_, ?_, ?_, ?_, ?_, ?_, ?_, ?_, ?_⟩
  · rintro (h | h) <;> simp [setDefaults_eq, h]
  · rintro (h | h) <;> simp [setDefaults_eq, h]
  · rintro (h | h) <;> simp [setDefaults_eq, h]
  · intro s h hs; simp [setDefaults_eq, h, hs]
  · intro s h hs; simp [setDefaults_eq, h, hs]
  · intro s h hs; simp [setDefaults_eq, h, hs]
  · exact (setDefaults_nonempty _).1
  · exact (setDefaults_nonempty _).2.1
  · exact (setDefaults_nonempty _).2.2
  · exact setDefaults_idem _
  · intro s hs
    have hdec' : unmarshal env payload
        = .ok ⟨o.type_.getD "", o.version.getD "", o.hash.getD ""⟩ := by
      simp [unmarshal, hdec]
    generalize (⟨o.type_.getD "", o.version.getD "", o.hash.getD ""⟩ : Payload) = p0
      at hdec' ⊢
    cases hfile : env.readFile (filePath (setDefaults p0).Type_ (setDefaults p0).Version) with
    | none =>
      rw [processFilePayload_noFile env ev db payload p0 hdec' hfile] at hs
      cases hs
    | some c =>
      rcases hex : execInsert ev db ⟨(setDefaults p0).Type_, (setDefaults p0).Version,
        some (calculateHash env c), some c, some env.now⟩ with ⟨db1, err1⟩
      have hins := fun err herr hq => processFilePayload_insert env ev db db1 payload p0 c
        err err1 hdec' hfile hq herr hex
      have hresp : ∀ eh, ∃ h c', prepareResponse (setDefaults p0) eh (calculateHash env c) c
          = ⟨(setDefaults p0).Type_, (setDefaults p0).Version, h, c'⟩ := by
        intro eh
        unfold prepareResponse
        split
        · exact ⟨_, _, rfl⟩
        · exact ⟨_, _, rfl⟩
      rcases queryRowScan_cases ev db (setDefaults p0).Type_ (setDefaults p0).Version
        with ⟨h, hq⟩ | hq | ⟨msg, hq⟩
      · by_cases hne : h = ""
        · subst hne
          rw [hins none (Or.inl rfl) hq] at hs
          by_cases h1 : err1 = none
          · simp [h1] at hs
            obtain ⟨h, c', hr⟩ := hresp ""
            exact ⟨h, c', by rw [← hs, hr]⟩
          · simp [h1] at hs
        · rw [processFilePayload_skip env ev db payload p0 c h none hdec' hfile hq
            (Or.inl rfl) hne] at hs
          simp at hs
          obtain ⟨h', c', hr⟩ := hresp h
          exact ⟨h', c', by rw [← hs, hr]⟩
      · rw [hins _ (Or.inr rfl) hq] at hs
        by_cases h1 : err1 = none
        · simp [h1] at hs
          obtain ⟨h, c', hr⟩ := hresp ""
          exact ⟨h, c', by rw [← hs, hr]⟩
        · simp [h1] at hs
      · rw [processFilePayload_queryFailed env ev db payload p0 c "" msg hdec' hfile hq] at hs
        cases hs

/-- C5 on the sample environment: a request without members. -/
theorem request_normalization_witness :
    sampleEnv.jsonFields "empty" = .ok ⟨none, none, none⟩ ∧
    ∃ p0, unmarshal sampleEnv "empty" = .ok p0 ∧
      (setDefaults p0).Type_ = "core" ∧ (setDefaults p0).Version = "1.0.0" ∧
      (setDefaults p0).Hash = "null" ∧ setDefaults (setDefaults p0) = setDefaults p0 :=
  ⟨by rfl,
    (request_normalization sampleEnv quiet [] "empty" ⟨none, none, none⟩ (by rfl)).imp
      fun _ h => ⟨h.1, h.2.1 (Or.inl rfl), h.2.2.1 (Or.inl rfl), h.2.2.2.1 (Or.inl rfl),
        h.2.2.2.2.2.2.2.2.2.2.1⟩⟩

/-- C6 fails on the code: on an empty table, with another session committing
the row for `core`, `1.0.0` after the `SELECT`, the lookup reports no record,
the insert is rejected by the uniqueness constraint, and the handler fails
with the internal error. -/
theorem key_conflict_not_recovered :
    queryRowScan lostRace [] "core" "1.0.0" = ("", some .errNoRows) ∧
    execInsert lostRace [] sampleRow = ([racingRow], some .uniqueViolation) ∧
    (processFilePayload sampleEnv lostRace [] "empty").stmts
      = [.selectHash "core" "1.0.0", .insertRow sampleRow] ∧
    (processFilePayload sampleEnv lostRace [] "empty").result
      = .error ⟨"internal server error", 13⟩ :=
  ⟨by rfl, by rfl, by rfl, by rfl⟩

/-- C6 as the code has it.  When the lookup reports no record and the insert
is rejected by the uniqueness constraint on `(type, version)`, the handler
fails with the error `internal server error`, code 13; it has sent the
`SELECT` and the `INSERT` and nothing after them, and the table is the one the
other sessions left. -/
theorem key_conflict_is_internal_error (env : Env) (ev : DbEvents) (db db1 : Table)
    (payload : String) (p0 p : Payload) (c : String)
    (hdec : unmarshal env payload = .ok p0) (hp : setDefaults p0 = p)
    (hfile : env.readFile (filePath p.Type_ p.Version) = some c)
    (hno : queryRowScan ev db p.Type_ p.Version = ("", some .errNoRows))
    (hconf : execInsert ev db
      ⟨p.Type_, p.Version, some (calculateHash env c), some c, some env.now⟩
        = (db1, some .uniqueViolation)) :
    (processFilePayload env ev db payload).result
      = .error ⟨"internal server error", 13⟩ ∧
    (processFilePayload env ev db payload).stmts
      = [.selectHash p.Type_ p.Version,
         .insertRow ⟨p.Type_, p.Version, some (calculateHash env c), some c, some env.now⟩] ∧
    (processFilePayload env ev db payload).rows = db1 ∧
    db1 = commitAll db ev.concurrent := by
  subst hp
  rw [processFilePayload_insert env ev db db1 payload p0 c _ _ hdec hfile hno (Or.inr rfl) hconf]
  refine ⟨by simp [InternalServerError], rfl, rfl, ?_⟩
  rcases execInsert_cases ev db ⟨(setDefaults p0).Type_, (setDefaults p0).Version,
      some (calculateHash env c), some c, some env.now⟩ with ⟨e, he⟩ | ⟨he, _⟩
  · rw [he] at hconf
    exact (Prod.mk.inj hconf).1.symm
  · rw [he] at hconf
    cases (Prod.mk.inj hconf).2

/-- C6 as the code has it, on the sample environment: the lost race. -/
theorem key_conflict_is_internal_error_witness :
    queryRowScan lostRace [] "core" "1.0.0" = ("", some .errNoRows) ∧
    (processFilePayload sampleEnv lostRace [] "empty").result
      = .error ⟨"internal server error", 13⟩ ∧
    (processFilePayload sampleEnv lostRace [] "empty").rows = [racingRow] :=
  have h := key_conflict_is_internal_error sampleEnv lostRace [] [racingRow] "empty"
    ⟨"", "", ""⟩ ⟨"core", "1.0.0", "null"⟩ "hello" (by rfl) (by rfl) (by rfl) (by rfl) (by rfl)
  ⟨by rfl, h.1, h.2.2.1⟩

/-- C7 on the code: a table holds a row for `core`, `1.0.0` whose stored
fingerprint is the empty string.  The lookup returns it without error, yet the
handler sends an `INSERT`, which the primary key rejects, and fails with the
internal error; the table is unchanged. -/
theorem empty_fingerprint_row_is_not_skipped :
    queryRowScan quiet [emptyHashRow] "core" "1.0.0" = ("", none) ∧
    (processFilePayload sampleEnv quiet [emptyHashRow] "empty").stmts
      = [.selectHash "core" "1.0.0", .insertRow sampleRow] ∧
    (processFilePayload sampleEnv quiet [emptyHashRow] "empty").result
      = .error ⟨"internal server error", 13⟩ ∧
    (processFilePayload sampleEnv quiet [emptyHashRow] "empty").rows = [emptyHashRow] :=
  ⟨by rfl, by rfl, by rfl, by rfl⟩

/-- C8, two requests for one key.  Let a first call on a table without a
record for the key succeed with `R1`, the blob content `c` being the same for
both calls.  Then `R1` is the response disclosing `c` and its fingerprint, and
the first call sent one `INSERT`.  A second call for the same key, at any
later time and whatever the database does, sends no `INSERT` and leaves the
table as the first call left it; when its lookup is answered, it returns `R1`
if its client hash is the fingerprint in `R1`, and the response with `"null"`
twice for every other client hash. -/
theorem idempotent_caching (env : Env) (ev1 ev2 : DbEvents) (db : Table)
    (payload1 payload2 : String) (p1 p2 : Payload) (kind version c R1 : String) (now2 : Nat)
    (hdec1 : unmarshal env payload1 = .ok p1) (hdec2 : unmarshal env payload2 = .ok p2)
    (hk1 : (setDefaults p1).Type_ = kind) (hv1 : (setDefaults p1).Version = version)
    (hk2 : (setDefaults p2).Type_ = kind) (hv2 : (setDefaults p2).Version = version)
    (hfile : env.readFile (filePath kind version) = some c)
    (hno : db.find? (fun r => r.hasKey kind version) = none)
    (hok : (processFilePayload env ev1 db payload1).result = .ok R1) :
    R1 = env.jsonMarshal ⟨kind, version, calculateHash env c, c⟩ ∧
    (processFilePayload env ev1 db payload1).stmts
      = [.selectHash kind version,
         .insertRow ⟨kind, version, some (calculateHash env c), some c, some env.now⟩] ∧
    (∀ row, Stmt.insertRow row ∉
      (processFilePayload { env with now := now2 } ev2
        (processFilePayload env ev1 db payload1).rows payload2).stmts) ∧
    (processFilePayload { env with now := now2 } ev2
        (processFilePayload env ev1 db payload1).rows payload2).rows
      = (processFilePayload env ev1 db payload1).rows ∧
    (ev2.queryErr = none →
      ((setDefaults p2).Hash = calculateHash env c →
        (processFilePayload { env with now := now2 } ev2
          (processFilePayload env ev1 db payload1).rows payload2).result = .ok R1) ∧
      ((setDefaults p2).Hash ≠ calculateHash env c →
        (processFilePayload { env with now := now2 } ev2
          (processFilePayload env ev1 db payload1).rows payload2).result
          = .ok (env.jsonMarshal ⟨kind, version, "null", "null"⟩))) := by
  subst hk1 hv1
  -- the first call
  rcases hex : execInsert ev1 db ⟨(setDefaults p1).Type_, (setDefaults p1).Version,
    some (calculateHash env c), some c, some env.now⟩ with ⟨db1, err1⟩
  have hq1 : queryRowScan ev1 db (setDefaults p1).Type_ (setDefaults p1).Version
      = ("", some .errNoRows) := by
    rcases queryRowScan_cases ev1 db (setDefaults p1).Type_ (setDefaults p1).Version
      with ⟨h, hq⟩ | hq | ⟨msg, hq⟩
    · exfalso
      unfold queryRowScan at hq
      rw [hno] at hq
      split at hq <;> cases hq
    · exact hq
    · rw [processFilePayload_queryFailed env ev1 db payload1 p1 c "" msg hdec1 hfile hq] at hok
      cases hok
  have hfirst := processFilePayload_insert env ev1 db db1 payload1 p1 c _ err1 hdec1 hfile hq1
    (Or.inr rfl) hex
  rw [hfirst] at hok ⊢
  have herr1 : err1 = none := by
    by_contra h
    simp [h] at hok
  subst herr1
  have hR1 : R1 = env.jsonMarshal
      ⟨(setDefaults p1).Type_, (setDefaults p1).Version, calculateHash env c, c⟩ := by
    simp [prepareResponse] at hok
    exact hok.symm
  have hfound : db1.find? (fun r => r.hasKey (setDefaults p1).Type_ (setDefaults p1).Version)
      = some ⟨(setDefaults p1).Type_, (setDefaults p1).Version,
          some (calculateHash env c), some c, some env.now⟩ := by
    rcases execInsert_cases ev1 db ⟨(setDefaults p1).Type_, (setDefaults p1).Version,
      some (calculateHash env c), some c, some env.now⟩ with ⟨e, he⟩ | ⟨he, hkey⟩
    · rw [he] at hex; cases (Prod.mk.inj hex).2
    · rw [he] at hex
      rw [← (Prod.mk.inj hex).1]
      exact find?_append_new _ _ hkey
  -- the second call
  have hdec2' : unmarshal { env with now := now2 } payload2 = .ok p2 := hdec2
  have hfile2 : Env.readFile { env with now := now2 }
      (filePath (setDefaults p2).Type_ (setDefaults p2).Version) = some c := by
    rw [hk2, hv2]; exact hfile
  have hcalc : calculateHash { env with now := now2 } c = calculateHash env c := rfl
  refine ⟨hR1, rfl, ?_⟩
  show (∀ row, Stmt.insertRow row ∉
      (processFilePayload { env with now := now2 } ev2 db1 payload2).stmts) ∧
    (processFilePayload { env with now := now2 } ev2 db1 payload2).rows = db1 ∧
    (ev2.queryErr = none →
      ((setDefaults p2).Hash = calculateHash env c →
        (processFilePayload { env with now := now2 } ev2 db1 payload2).result = .ok R1) ∧
      ((setDefaults p2).Hash ≠ calculateHash env c →
        (processFilePayload { env with now := now2 } ev2 db1 payload2).result
          = .ok (env.jsonMarshal
              ⟨(setDefaults p1).Type_, (setDefaults p1).Version, "null", "null"⟩)))
  cases hqe : ev2.queryErr with
  | some msg =>
    have hq2 : queryRowScan ev2 db1 (setDefaults p2).Type_ (setDefaults p2).Version
        = ("", some (.other msg)) := by
      simp [queryRowScan, hqe]
    rw [processFilePayload_queryFailed _ ev2 db1 payload2 p2 c "" msg hdec2' hfile2 hq2]
    exact ⟨by simp, rfl, by intro h; cases h⟩
  | none =>
    have hq2 : queryRowScan ev2 db1 (setDefaults p2).Type_ (setDefaults p2).Version
        = (calculateHash env c, none) := by
      rw [hk2, hv2]
      simp [queryRowScan, hqe, hfound]
    rw [processFilePayload_skip _ ev2 db1 payload2 p2 c (calculateHash env c) none hdec2'
      hfile2 hq2 (Or.inl rfl) (calculateHash_ne_empty env c)]
    refine ⟨by simp, rfl, fun _ => ⟨?_, ?_⟩⟩
    · intro hh
      rw [hR1, ← hk2, ← hv2]
      simp [prepareResponse, hcalc, hh]
    · intro hh
      rw [← hk2, ← hv2]
      simp [prepareResponse, hcalc, hh, calculateHash_ne_empty]

/-- C8 on the sample environment: a first request on an empty table, then a
request with the fingerprint of the first response. -/
theorem idempotent_caching_witness :
    (processFilePayload sampleEnv quiet [] "empty").result
      = .ok (sampleMarshal ⟨"core", "1.0.0", sampleHash, "hello"⟩) ∧
    (processFilePayload { sampleEnv with now := 1700000001 } quiet
      (processFilePayload sampleEnv quiet [] "empty").rows "core/1.0.0/good").result
      = .ok (sampleMarshal ⟨"core", "1.0.0", sampleHash, "hello"⟩) ∧
    (processFilePayload { sampleEnv with now := 1700000001 } quiet
      (processFilePayload sampleEnv quiet [] "empty").rows "core/1.0.0/good").rows
      = (processFilePayload sampleEnv quiet [] "empty").rows :=
  have h := idempotent_caching sampleEnv quiet quiet [] "empty" "core/1.0.0/good"
    ⟨"", "", ""⟩ ⟨"core", "1.0.0", sampleHash⟩ "core" "1.0.0" "hello"
    (sampleMarshal ⟨"core", "1.0.0", sampleHash, "hello"⟩) 1700000001
    (by rfl) (by rfl) (by rfl) (by rfl) (by rfl) (by rfl) (by rfl) (by rfl) (by rfl)
  ⟨by rfl, (h.2.2.2.2 rfl).1 (by rfl), h.2.2.2.1⟩

/-- C9, internal errors.  With a resolvable blob, a lookup error other than
`sql.ErrNoRows`, and likewise a failed insert after a lookup that reported no
record, make the handler fail with the error `internal server error`, code 13,
which does not depend on the underlying error and differs from the not-found
error (code 5) and from every malformed-input error (code 3). -/
theorem internal_errors (env : Env) (ev : DbEvents) (db : Table)
    (payload : String) (p0 p : Payload) (c : String)
    (hdec : unmarshal env payload = .ok p0) (hp : setDefaults p0 = p)
    (hfile : env.readFile (filePath p.Type_ p.Version) = some c) :
    (∀ h e, queryRowScan ev db p.Type_ p.Version = (h, some e) → e ≠ .errNoRows →
      (processFilePayload env ev db payload).result
        = .error ⟨"internal server error", 13⟩) ∧
    (queryRowScan ev db p.Type_ p.Version = ("", some .errNoRows) →
      (execInsert ev db
        ⟨p.Type_, p.Version, some (calculateHash env c), some c, some env.now⟩).2 ≠ none →
      (processFilePayload env ev db payload).result
        = .error ⟨"internal server error", 13⟩) ∧
    (⟨"internal server error", 13⟩ : RuntimeError) ≠ ⟨FileNotFound, 5⟩ ∧
    ∀ msg, (⟨"internal server error", 13⟩ : RuntimeError) ≠ ⟨msg, 3⟩ := by
  subst hp
  refine ⟨?_, ?_, by decide, ?_⟩
  · intro h e hq hne
    rcases queryRowScan_cases ev db (setDefaults p0).Type_ (setDefaults p0).Version
      with ⟨h', hq'⟩ | hq' | ⟨msg, hq'⟩
    · rw [hq'] at hq; cases hq
    · rw [hq'] at hq; cases hq; exact absurd rfl hne
    · rw [processFilePayload_queryFailed env ev db payload p0 c "" msg hdec hfile hq']
      rfl
  · intro hq hins
    rcases hex : execInsert ev db ⟨(setDefaults p0).Type_, (setDefaults p0).Version,
      some (calculateHash env c), some c, some env.now⟩ with ⟨db1, err1⟩
    rw [hex] at hins
    rw [processFilePayload_insert env ev db db1 payload p0 c _ err1 hdec hfile hq (Or.inr rfl) hex]
    have hins1 : err1 ≠ none := hins
    simp [hins1, InternalServerError]
  · intro msg h
    cases h

/-- C9 on the sample environment: the `SELECT` fails at the driver. -/
theorem internal_errors_witness :
    queryRowScan selectDown [] "core" "1.0.0" = ("", some (.other "connection refused")) ∧
    (processFilePayload sampleEnv selectDown [] "empty").result
      = .error ⟨"internal server error", 13⟩ :=
  ⟨by rfl,
    (internal_errors sampleEnv selectDown [] "empty" ⟨"", "", ""⟩ ⟨"core", "1.0.0", "null"⟩
      "hello" (by rfl) (by rfl) (by rfl)).1 "" (.other "connection refused") (by rfl)
      (by decide)⟩

/-- C10, the sentinel never matches a fingerprint.  The fingerprint of any
content has 64 characters, all among `0123456789abcdef`, and differs from
`"null"`.  Hence, when the lookup returns a non-empty stored fingerprint and
the blob resolves, a request whose hash member is missing, empty or `"null"`
gets the response with `"null"` twice, and so does every request whose
normalized hash is not the fresh fingerprint. -/
theorem sentinel_never_matches (env : Env) (ev : DbEvents) (db : Table)
    (payload : String) (o : JsonFields) (p0 p : Payload) (c stored : String)
    (hfields : env.jsonFields payload = .ok o)
    (hdec : unmarshal env payload = .ok p0) (hp : setDefaults p0 = p)
    (hfile : env.readFile (filePath p.Type_ p.Version) = some c)
    (hrec : queryRowScan ev db p.Type_ p.Version = (stored, none))
    (hne : stored ≠ "") :
    (∀ content, (calculateHash env content).length = 64 ∧
      (∀ ch ∈ (calculateHash env content).toList, ch ∈ "0123456789abcdef".toList) ∧
      calculateHash env content ≠ "null") ∧
    ((o.hash = none ∨ o.hash = some "" ∨ o.hash = some "null") →
      (processFilePayload env ev db payload).result
        = .ok (env.jsonMarshal ⟨p.Type_, p.Version, "null", "null"⟩)) ∧
    (p.Hash ≠ calculateHash env c →
      (processFilePayload env ev db payload).result
        = .ok (env.jsonMarshal ⟨p.Type_, p.Version, "null", "null"⟩)) := by
  subst hp
  have hskip := processFilePayload_skip env ev db payload p0 c stored none hdec hfile hrec
    (Or.inl rfl) hne
  have hsupp : (setDefaults p0).Hash ≠ calculateHash env c →
      (processFilePayload env ev db payload).result
        = .ok (env.jsonMarshal
            ⟨(setDefaults p0).Type_, (setDefaults p0).Version, "null", "null"⟩) := by
    intro hh
    rw [hskip]
    simp [prepareResponse, hne, hh]
  refine ⟨?_, ?_, hsupp⟩
  · intro content
    exact ⟨calculateHash_length env content,
      fun ch hch => encodeToString_mem _ ch hch, calculateHash_ne_null env content⟩
  · intro ho
    apply hsupp
    have hp0 : p0 = ⟨o.type_.getD "", o.version.getD "", o.hash.getD ""⟩ := by
      simp [unmarshal, hfields] at hdec
      exact hdec.symm
    have hnull : (setDefaults p0).Hash = "null" := by
      rw [hp0, setDefaults_eq]
      rcases ho with h | h | h <;> simp [h]
    rw [hnull]
    exact fun h => calculateHash_ne_null env c h.symm

/-- C10 on the sample environment: a cached key and the client hash `"null"`. -/
theorem sentinel_never_matches_witness :
    queryRowScan quiet [sampleRow] "core" "1.0.0" = (sampleHash, none) ∧
    (processFilePayload sampleEnv quiet [sampleRow] "core/1.0.0/null").result
      = .ok (sampleMarshal ⟨"core", "1.0.0", "null", "null"⟩) :=
  ⟨by rfl,
    (sentinel_never_matches sampleEnv quiet [sampleRow] "core/1.0.0/null"
      ⟨some "core", some "1.0.0", some "null"⟩ ⟨"core", "1.0.0", "null"⟩
      ⟨"core", "1.0.0", "null"⟩ "hello" sampleHash
      (by rfl) (by rfl) (by rfl) (by rfl) (by rfl) (by decide)).2.1 (Or.inr (Or.inr rfl))⟩

end NakamaRpc
